import Mathlib

/-!
Verification of the UltraForward relay bot against its specification.

The Python sources under `uf/src` are shallowly embedded: pure helpers become
Lean functions, the SQLAlchemy tables become lists of rows, the async handlers
become state-passing functions whose outbound Telegram calls are driven by a
boolean oracle (`true` = the call succeeds, `false` = it raises `TimedOut`),
and Python exceptions become explicit result constructors.
-/

namespace UF

/-! ## Strings: Python `str.upper` and substring containment -/

/-- Model of Python `str.upper()` restricted to ASCII, which is exact for the
captcha alphabet and for the letters it can produce. -/
def pyUpper (s : String) : String :=
  String.mk (s.data.map Char.toUpper)

/-- Case-insensitive string equality, the notion the spec appeals to. -/
def ciEq (a b : String) : Bool :=
  pyUpper a == pyUpper b

/-- `needle` occurs as a contiguous sublist of `hay`. -/
def isSubOf (needle : List Char) : List Char → Bool
  | [] => needle.isEmpty
  | c :: t => needle.isPrefixOf (c :: t) || isSubOf needle t

/-- Model of Python `w in text` (substring containment). -/
def containsSub (text w : String) : Bool :=
  isSubOf w.data text.data

/-! ## `verify.py`: captcha generation (`Visual.sync_generate_captcha_gif`) -/

/-- `Visual.allowed_chars` from `verify.py`. -/
def allowed_chars : List Char := "ABCEFHJKLMNPRTVXYZ".data

/-- The text part of `Visual.sync_generate_captcha_gif`:
`''.join(secrets.choice(list(self.allowed_chars)) for _ in range(5))`.
The five random draws of `secrets.choice` are abstracted into `pick`. -/
def sync_generate_captcha_text (pick : Fin 5 → Fin allowed_chars.length) : String :=
  String.mk (List.ofFn (fun i => allowed_chars.get (pick i)))

/-! ## `spam_detect.py`: keyword fallback and `check_spam` -/

/-- The pydantic `Spam` model (`spam: bool`, `reason: str`). -/
structure Spam where
  spam : Bool
  reason : String
deriving DecidableEq

/-- `SpamDetector._detect_of_words`: first prohibited word occurring as a
substring of the text wins; no match means not spam.  The word list is a
parameter because `assets/prohibited_words.txt` only fixes its content. -/
def detect_of_words (words : List String) (text : String) : Spam :=
  match words.find? (fun w => containsSub text w) with
  | some w => ⟨true, "触发关键词: " ++ w⟩
  | none => ⟨false, "未触发任何关键词"⟩

/-- Outcome of the classifier call in `check_spam`'s `try` block, tagging which
exception class (if any) the body raises:
`answer s` is a reply that validated against the `Spam` schema,
`timeout` is `asyncio.TimeoutError`, `apiError` is `OpenAIError`,
`invalidOutput` is `ValidationError`/`TypeError`/`ValueError`, and
`unknownFailure` is any other exception. -/
inductive ClassifierOutcome
  | answer (s : Spam)
  | timeout
  | apiError
  | invalidOutput
  | unknownFailure
deriving DecidableEq

/-- `SpamDetector.check_spam`.  `token`, `base_url` and `model` are the
`config.openai` fields tested by `if not self.token or not self.base_url or
not self.model` (empty string is falsy).  An `Except.error` value models the
bare `raise` in the final `except Exception` clause. -/
def check_spam (token base_url mdl : String) (words : List String)
    (oracle : ClassifierOutcome) (text : String) : Except Unit (Bool × String) :=
  if token.isEmpty || base_url.isEmpty || mdl.isEmpty then
    let s := detect_of_words words text
    .ok (s.spam, s.reason)
  else
    match oracle with
    | .answer s => .ok (s.spam, s.reason)
    | .timeout =>
        let s := detect_of_words words text
        .ok (s.spam, s.reason)
    | .apiError =>
        let s := detect_of_words words text
        .ok (s.spam, s.reason)
    | .invalidOutput =>
        let s := detect_of_words words text
        .ok (s.spam, s.reason)
    | .unknownFailure => .error ()

/-! ## Claims C3, C6, C10 -/

/-- Claim C3: `check_spam` propagates an exception to its caller if and only
if the classifier is configured and the failure is neither a timeout, nor a
classifier-reported error, nor a schema/validation error; in those three
cases it returns the keyword-fallback result, and when the classifier is
unconfigured no classifier call is made at all (the result does not depend
on the classifier oracle) and the fallback result is returned. -/
theorem check_spam_error_policy (token base_url mdl : String) (words : List String)
    (oracle : ClassifierOutcome) (text : String) :
    (check_spam token base_url mdl words oracle text = .error () ↔
      (¬ (token.isEmpty || base_url.isEmpty || mdl.isEmpty) = true ∧
        oracle = .unknownFailure)) ∧
    ((oracle = .timeout ∨ oracle = .apiError ∨ oracle = .invalidOutput) →
      check_spam token base_url mdl words oracle text =
        .ok ((detect_of_words words text).spam, (detect_of_words words text).reason)) ∧
    ((token.isEmpty || base_url.isEmpty || mdl.isEmpty) = true →
      (∀ oracle2, check_spam token base_url mdl words oracle2 text =
        check_spam token base_url mdl words oracle text) ∧
      check_spam token base_url mdl words oracle text =
        .ok ((detect_of_words words text).spam, (detect_of_words words text).reason)) := by
  refine ⟨?_, ?_, ?_⟩
  · unfold check_spam
    split
    · simp_all
    · cases oracle <;> simp_all
  · intro h
    unfold check_spam
    rcases h with h | h | h <;> subst h <;> split <;> simp
  · intro h
    unfold check_spam
    simp [h]

/-- Witness for C3 at a concrete configured detector and a timed-out call. -/
theorem check_spam_error_policy_witness :
    check_spam "tok" "url" "mdl" ["bad"] .timeout "a bad text" =
      .ok (true, "触发关键词: bad") :=
  ((check_spam_error_policy "tok" "url" "mdl" ["bad"] .timeout "a bad text").2.1
    (Or.inl rfl)).trans (congrArg Except.ok (by decide))

/-- Claim C6: the keyword fallback is a deterministic, case-sensitive
substring scan: it returns spam with the matched-keyword reason for the
first listed word occurring as a substring of the text, not-spam when no
listed word occurs, and two runs on the same inputs agree. -/
theorem detect_of_words_spec (words : List String) (text : String) :
    ((∀ w ∈ words, containsSub text w = false) →
      detect_of_words words text = ⟨false, "未触发任何关键词"⟩) ∧
    (∀ ws1 w ws2, words = ws1 ++ w :: ws2 →
      (∀ v ∈ ws1, containsSub text v = false) →
      containsSub text w = true →
      detect_of_words words text = ⟨true, "触发关键词: " ++ w⟩) ∧
    detect_of_words words text = detect_of_words words text := by
  refine ⟨?_, ?_, rfl⟩
  · intro h
    unfold detect_of_words
    rw [List.find?_eq_none.mpr]
    intro w hw
    simp [h w hw]
  · intro ws1 w ws2 hsplit h1 hw
    subst hsplit
    unfold detect_of_words
    have : (ws1 ++ w :: ws2).find? (fun v => containsSub text v) = some w := by
      induction ws1 with
      | nil => simp [List.find?_cons, hw]
      | cons v vs ih =>
          have hv : containsSub text v = false := h1 v (by simp)
          simp only [List.cons_append, List.find?_cons, hv]
          exact ih (fun u hu => h1 u (by simp [hu]))
    rw [this]

/-- Witness for C6: first match in list order wins on a concrete input. -/
theorem detect_of_words_spec_witness :
    detect_of_words ["xyz", "free money", "money"] "wire free money now" =
      ⟨true, "触发关键词: " ++ "free money"⟩ :=
  (detect_of_words_spec ["xyz", "free money", "money"] "wire free money now").2.1
    ["xyz"] "free money" ["money"] rfl (by decide) (by decide)

/-- Comparing the uppercased submission against a code over the captcha
alphabet coincides with case-insensitive equality. -/
theorem upper_eq_ciEq_of_allowed (code : String)
    (hcode : ∀ c ∈ code.data, c ∈ allowed_chars) (s : String) :
    (pyUpper s == code) = ciEq s code := by
  have hupper : pyUpper code = code := by
    have hfix : ∀ c ∈ code.data, c.toUpper = c := by
      intro c hc
      have hall : ∀ c ∈ allowed_chars, c.toUpper = c := by decide
      exact hall c (hcode c hc)
    have hdata : code.data.map Char.toUpper = code.data := by
      rw [List.map_congr_left hfix]
      exact List.map_id _
    unfold pyUpper
    rw [hdata]
  rw [ciEq, hupper]

/-- Claim C10: every generated challenge code has exactly 5 characters drawn
from the fixed uppercase alphabet, and for any stored code over that
alphabet the implementation's comparison `text.upper() == verify.code`
coincides with case-insensitive equality of submission and code. -/
theorem captcha_code_uppercase_spec (pick : Fin 5 → Fin allowed_chars.length) :
    (sync_generate_captcha_text pick).length = 5 ∧
    (∀ c ∈ (sync_generate_captcha_text pick).data, c ∈ allowed_chars) ∧
    (∀ code : String, (∀ c ∈ code.data, c ∈ allowed_chars) →
      ∀ s : String, (pyUpper s == code) = ciEq s code) := by
  refine ⟨?_, ?_, fun code hcode s => upper_eq_ciEq_of_allowed code hcode s⟩
  · simp [sync_generate_captcha_text, String.length]
  · intro c hc
    simp only [sync_generate_captcha_text, List.mem_ofFn] at hc
    obtain ⟨i, hi⟩ := hc
    exact hi ▸ allowed_chars.get_mem (pick i).1 (pick i).2

/-- Witness for C10 (case-insensitive comparison part at a concrete code). -/
theorem captcha_code_uppercase_spec_witness :
    (pyUpper "abcef" == "ABCEF") = ciEq "abcef" "ABCEF" :=
  (captcha_code_uppercase_spec (fun _ => ⟨0, by decide⟩)).2.2
    "ABCEF" (by decide) "abcef"

/-! ## `cache.py`: the sliding-window flood counter (`DataCache.flood_message`) -/

/-- `DataCache.flood_message` for one user.  The user's entry in
`user_message_time_queues` is an optional timestamp queue: `none` models an
absent dictionary entry.  Timestamps are `time.monotonic()` values, modelled
by an arbitrary linearly ordered ring (`ℚ` in the general theorems; integer
instants, which are equally valid clock readings, in concrete runs).
Returns the new entry together with the returned count. -/
def flood_message {α : Type} [LinearOrderedRing α]
    (q : Option (List α)) (now window : α) : Option (List α) × Nat :=
  if window ≤ 0 then (q, 0)
  else
    let q1 := q.getD [] ++ [now]
    let q2 := q1.dropWhile (fun t => decide (window < now - t))
    if q2.isEmpty then (none, 0) else (some q2, q2.length)

/-- Run a sequence of `flood_message` calls for one user, collecting the
returned counts. -/
def runFlood (window : ℚ) : Option (List ℚ) → List ℚ → List Nat
  | _, [] => []
  | q, t :: ts =>
      let r := flood_message q t window
      r.2 :: runFlood window r.1 ts

/-- What the spec promises each call returns: the number of recorded
timestamps (the full history so far) within `window` of the latest call. -/
def floodSpec (window : ℚ) : List ℚ → List ℚ → List Nat
  | _, [] => []
  | hist, t :: ts =>
      (hist ++ [t]).countP (fun x => decide (t - x ≤ window)) ::
        floodSpec window (hist ++ [t]) ts

theorem dropWhile_eq_filter_of_sorted (now window : ℚ) :
    ∀ l : List ℚ, l.Pairwise (· ≤ ·) →
      l.dropWhile (fun t => decide (window < now - t)) =
        l.filter (fun t => decide (now - t ≤ window)) := by
  intro l
  induction l with
  | nil => simp
  | cons a l ih =>
      intro hp
      rw [List.pairwise_cons] at hp
      by_cases h : window < now - a
      · simp only [List.dropWhile_cons, List.filter_cons, decide_eq_true_eq,
          if_pos h, if_neg (not_le.mpr h)]
        exact ih hp.2
      · have hle : now - a ≤ window := not_lt.mp h
        have hall : ∀ x ∈ l, (fun t => decide (now - t ≤ window)) x = true := by
          intro x hx
          have hax := hp.1 x hx
          have : now - x ≤ window := by linarith
          simpa using this
        simp only [List.dropWhile_cons, List.filter_cons, decide_eq_true_eq,
          if_neg h, if_pos hle]
        rw [List.filter_eq_self.mpr hall]

theorem flood_message_sorted (window now : ℚ) (hW : 0 < window) (l : List ℚ)
    (hp : l.Pairwise (· ≤ ·)) (hle : ∀ x ∈ l, x ≤ now) :
    flood_message (some l) now window =
      (some ((l ++ [now]).filter (fun x => decide (now - x ≤ window))),
        ((l ++ [now]).filter (fun x => decide (now - x ≤ window))).length) := by
  have hp' : (l ++ [now]).Pairwise (· ≤ ·) := by
    rw [List.pairwise_append]
    refine ⟨hp, List.pairwise_singleton _ _, ?_⟩
    intro x hx y hy
    rw [List.mem_singleton] at hy
    exact hy ▸ hle x hx
  have hmem : now ∈ (l ++ [now]).filter (fun x => decide (now - x ≤ window)) := by
    refine List.mem_filter.mpr ⟨by simp, ?_⟩
    simpa using le_of_lt hW
  unfold flood_message
  rw [if_neg (not_le.mpr hW)]
  simp only [Option.getD_some]
  rw [dropWhile_eq_filter_of_sorted now window _ hp']
  rw [if_neg]
  simp only [List.isEmpty_eq_true]
  exact List.ne_nil_of_mem hmem

theorem runFlood_aux (window : ℚ) (hW : 0 < window) :
    ∀ (ts hist : List ℚ) (last : ℚ),
      hist.Pairwise (· ≤ ·) → (∀ x ∈ hist, x ≤ last) →
      (∀ y ∈ ts, last ≤ y) → ts.Pairwise (· ≤ ·) →
      runFlood window (some (hist.filter (fun x => decide (last - x ≤ window)))) ts =
        floodSpec window hist ts := by
  intro ts
  induction ts with
  | nil => intro hist last _ _ _ _; rfl
  | cons t ts ih =>
      intro hist last hhist hbound hts hpts
      have hlast_t : last ≤ t := hts t (by simp)
      have hfp : (hist.filter (fun x => decide (last - x ≤ window))).Pairwise (· ≤ ·) :=
        hhist.filter _
      have hfle : ∀ x ∈ hist.filter (fun x => decide (last - x ≤ window)), x ≤ t :=
        fun x hx => le_trans (hbound x (List.mem_of_mem_filter hx)) hlast_t
      have hkey : ((hist.filter (fun x => decide (last - x ≤ window)) ++ [t]).filter
            (fun x => decide (t - x ≤ window))) =
          (hist ++ [t]).filter (fun x => decide (t - x ≤ window)) := by
        rw [List.filter_append, List.filter_append, List.filter_filter]
        congr 1
        apply List.filter_congr
        intro x _
        by_cases hc : t - x ≤ window
        · have hc2 : last - x ≤ window := by linarith
          simp [hc, hc2]
        · simp [hc]
      simp only [runFlood]
      rw [flood_message_sorted window t hW _ hfp hfle, hkey]
      simp only [floodSpec]
      congr 1
      · rw [List.countP_eq_length_filter]
      · have h1 : (hist ++ [t]).Pairwise (· ≤ ·) := by
          rw [List.pairwise_append]
          refine ⟨hhist, List.pairwise_singleton _ _, ?_⟩
          intro x hx y hy
          rw [List.mem_singleton] at hy
          exact hy ▸ le_trans (hbound x hx) hlast_t
        have h2 : ∀ x ∈ hist ++ [t], x ≤ t := by
          intro x hx
          rcases List.mem_append.mp hx with hx | hx
          · exact le_trans (hbound x hx) hlast_t
          · rw [List.mem_singleton] at hx
            exact le_of_eq hx
        have h3 : ∀ y ∈ ts, t ≤ y := (List.pairwise_cons.mp hpts).1
        have h4 : ts.Pairwise (· ≤ ·) := (List.pairwise_cons.mp hpts).2
        exact ih (hist ++ [t]) t h1 h2 h3 h4

/-! ## Claim C4 -/

/-- Claim C4: for a sequence of calls with window `W > 0` and nondecreasing
monotonic timestamps, each call appends the timestamp, evicts from the front
exactly the timestamps strictly older than `W` relative to the current call,
and returns the count of recorded timestamps within `W` of the latest call;
the empty-queue entry removal (`none` entry) behaves exactly like an empty
queue on the next call, so it never changes a later call's result. -/
theorem flood_message_window_spec (window : ℚ) (ts : List ℚ)
    (hW : 0 < window) (hmono : ts.Pairwise (· ≤ ·)) :
    runFlood window none ts = floodSpec window [] ts ∧
    (∀ l now, l.Pairwise (· ≤ ·) → (∀ x ∈ l, x ≤ now) →
      flood_message (some l) now window =
        (some ((l ++ [now]).filter (fun x => decide (now - x ≤ window))),
          ((l ++ [now]).filter (fun x => decide (now - x ≤ window))).length)) ∧
    (∀ now, flood_message none now window = flood_message (some []) now window) := by
  have hnone : ∀ now, flood_message none now window = flood_message (some []) now window := by
    intro now
    unfold flood_message
    rw [if_neg (not_le.mpr hW), if_neg (not_le.mpr hW)]
    rfl
  refine ⟨?_, fun l now hp hle => flood_message_sorted window now hW l hp hle, hnone⟩
  cases ts with
  | nil => rfl
  | cons t ts' =>
      simp only [runFlood]
      rw [hnone t]
      have h0 : flood_message (some []) t window =
          (some (([] ++ [t]).filter (fun x => decide (t - x ≤ window))),
            (([] ++ [t]).filter (fun x => decide (t - x ≤ window))).length) :=
        flood_message_sorted window t hW [] (List.Pairwise.nil) (by simp)
      have hkeep : decide (t - t ≤ window) = true := by
        simpa using le_of_lt hW
      have hfilt : ([] ++ [t]).filter (fun x => decide (t - x ≤ window)) = [t] := by
        simp only [List.nil_append, List.filter_cons, hkeep, if_pos]
        rfl
      rw [h0]
      simp only [hfilt]
      have hcast : [t] = ([t].filter (fun x => decide (t - x ≤ window))) := by
        rw [List.filter_eq_self.mpr]
        intro a ha
        rw [List.mem_singleton] at ha
        subst ha
        exact hkeep
      have h3 : ∀ y ∈ ts', t ≤ y := (List.pairwise_cons.mp hmono).1
      have h4 : ts'.Pairwise (· ≤ ·) := (List.pairwise_cons.mp hmono).2
      have htail := runFlood_aux window hW ts' [t] t
        (List.pairwise_singleton _ _) (by simp) h3 h4
      have hfilt2 : [t].filter (fun x => decide (t - x ≤ window)) = [t] := by
        simpa using hfilt
      simp only [floodSpec, List.nil_append]
      congr 1
      · rw [List.countP_eq_length_filter, hfilt2]
      · conv_lhs => rw [hcast]
        exact htail

/-- Witness for C4 at a concrete call sequence. -/
theorem flood_message_window_spec_witness :
    runFlood 4 none [0, 1, 2, 6] = floodSpec 4 [] [0, 1, 2, 6] :=
  (flood_message_window_spec 4 [0, 1, 2, 6] (by norm_num) (by decide)).1

/-! ## `sql/model.py` / `sql/repository.py`: the `messages` table -/

/-- A row of the `messages` table (`model.py`, class `Messages`).  The
surrogate `id` column is omitted; `time` is the `datetime.now()` value the
repository stamps on insert. -/
structure Messages where
  userid : Int
  private_message_id : Int
  topic_message_id : Int
  spam : Bool
  reason : String
  time : Int
deriving DecidableEq

/-- The two uniqueness constraints of the `messages` table: inserting `e`
into `db` violates the unique index on `topic_message_id` or the unique
constraint `uq_messages_user_private_msg` on `(userid, private_message_id)`. -/
def msgConflict (db : List Messages) (e : Messages) : Bool :=
  db.any (fun r =>
    r.topic_message_id == e.topic_message_id ||
    (r.userid == e.userid && r.private_message_id == e.private_message_id))

/-- Result of `UFRepository.insert_message`: normal return, or the
`RuntimeError("insert_message failed but no existing row found")`. -/
inductive InsertResult
  | ok
  | fatal
deriving DecidableEq

/-- `UFRepository.insert_message`: attempt the insert
(`_add_and_flush_nested_ignore_integrity` succeeds exactly when no
uniqueness constraint is violated); on an integrity conflict re-query first
by `topic_message_id`, then by `(userid, private_message_id)`, succeeding
silently if either finds a row, and raise otherwise.  On the raise the
enclosing transaction rolls back, leaving the table unchanged. -/
def insert_message (db : List Messages) (userid private_msg_id topic_msg_id : Int)
    (spam : Bool) (reason : String) (now : Int) : List Messages × InsertResult :=
  let entity : Messages := ⟨userid, private_msg_id, topic_msg_id, spam, reason, now⟩
  if msgConflict db entity then
    match db.find? (fun r => r.topic_message_id == topic_msg_id) with
    | some _ => (db, .ok)
    | none =>
        match db.find? (fun r =>
            r.userid == userid && r.private_message_id == private_msg_id) with
        | some _ => (db, .ok)
        | none => (db, .fatal)
  else (db ++ [entity], .ok)

/-- Rows matching a given `(userid, privateMessageId, topicMessageId)` triple. -/
def countTriple (db : List Messages) (userid private_msg_id topic_msg_id : Int) : Nat :=
  db.countP (fun r =>
    r.userid == userid && r.private_message_id == private_msg_id &&
      r.topic_message_id == topic_msg_id)

/-! ## Claim C1 -/

/-- Claim C1: `insert_message` stores the row when there is no uniqueness
conflict; on a conflict it returns success (leaving the table unchanged)
because one of the two re-queries necessarily finds a row, so the fatal
consistency error is raised only in the unreachable case where the insert
conflicts yet neither query finds a row — in particular it never fires; and
two insertions of the same triple leave exactly one stored row with both
callers observing success. -/
theorem insert_message_idempotent (db : List Messages)
    (userid private_msg_id topic_msg_id : Int) (spam : Bool) (reason : String) (now : Int) :
    (insert_message db userid private_msg_id topic_msg_id spam reason now).2 = .ok ∧
    (msgConflict db ⟨userid, private_msg_id, topic_msg_id, spam, reason, now⟩ = false →
      insert_message db userid private_msg_id topic_msg_id spam reason now =
        (db ++ [⟨userid, private_msg_id, topic_msg_id, spam, reason, now⟩], .ok)) ∧
    (msgConflict db ⟨userid, private_msg_id, topic_msg_id, spam, reason, now⟩ = true →
      insert_message db userid private_msg_id topic_msg_id spam reason now = (db, .ok)) ∧
    (msgConflict db ⟨userid, private_msg_id, topic_msg_id, spam, reason, now⟩ = false →
      ∀ spam2 reason2 now2,
        countTriple
          ((insert_message
            (insert_message db userid private_msg_id topic_msg_id spam reason now).1
            userid private_msg_id topic_msg_id spam2 reason2 now2).1)
          userid private_msg_id topic_msg_id = countTriple db userid private_msg_id topic_msg_id + 1) := by
  have hquery : msgConflict db ⟨userid, private_msg_id, topic_msg_id, spam, reason, now⟩ = true →
      (db.find? (fun r => r.topic_message_id == topic_msg_id)).isSome = true ∨
      (db.find? (fun r =>
          r.userid == userid && r.private_message_id == private_msg_id)).isSome = true := by
    intro hc
    rw [msgConflict, List.any_eq_true] at hc
    obtain ⟨r, hr, hor⟩ := hc
    rcases Bool.or_eq_true_iff.mp hor with h | h
    · left
      rw [List.find?_isSome]
      exact ⟨r, hr, h⟩
    · right
      rw [List.find?_isSome]
      exact ⟨r, hr, h⟩
  refine ⟨?_, ?_, ?_, ?_⟩
  · unfold insert_message
    by_cases hc : msgConflict db ⟨userid, private_msg_id, topic_msg_id, spam, reason, now⟩ = true
    · rcases hquery hc with h | h <;>
        [obtain ⟨r, hr⟩ := Option.isSome_iff_exists.mp h;
         obtain ⟨r, hr⟩ := Option.isSome_iff_exists.mp h]
      · simp only [hc, if_true, hr]
      · simp only [hc, if_true, hr]
        cases hfind : db.find? (fun r => r.topic_message_id == topic_msg_id) <;> simp
    · simp only [Bool.not_eq_true] at hc
      simp [hc]
  · intro hnc
    unfold insert_message
    simp [hnc]
  · intro hc
    unfold insert_message
    rcases hquery hc with h | h <;>
      [obtain ⟨r, hr⟩ := Option.isSome_iff_exists.mp h;
       obtain ⟨r, hr⟩ := Option.isSome_iff_exists.mp h]
    · simp only [hc, if_true, hr]
    · simp only [hc, if_true, hr]
      cases hfind : db.find? (fun r => r.topic_message_id == topic_msg_id) <;> simp
  · intro hnc spam2 reason2 now2
    have h1 : insert_message db userid private_msg_id topic_msg_id spam reason now =
        (db ++ [⟨userid, private_msg_id, topic_msg_id, spam, reason, now⟩], .ok) := by
      unfold insert_message
      simp [hnc]
    have hc2 : msgConflict (db ++ [⟨userid, private_msg_id, topic_msg_id, spam, reason, now⟩])
        ⟨userid, private_msg_id, topic_msg_id, spam2, reason2, now2⟩ = true := by
      rw [msgConflict, List.any_eq_true]
      exact ⟨⟨userid, private_msg_id, topic_msg_id, spam, reason, now⟩, by simp, by simp⟩
    have h2 : insert_message (db ++ [⟨userid, private_msg_id, topic_msg_id, spam, reason, now⟩])
        userid private_msg_id topic_msg_id spam2 reason2 now2 =
        (db ++ [⟨userid, private_msg_id, topic_msg_id, spam, reason, now⟩], .ok) := by
      unfold insert_message
      simp only [hc2, if_true]
      cases hfind : (db ++ [(⟨userid, private_msg_id, topic_msg_id, spam, reason, now⟩ : Messages)]).find?
          (fun r => r.topic_message_id == topic_msg_id) with
      | some r => rfl
      | none =>
          exact absurd (by simp)
            (List.find?_eq_none.mp hfind
              ⟨userid, private_msg_id, topic_msg_id, spam, reason, now⟩ (by simp))
    rw [h1]
    simp only [h2]
    rw [countTriple, countTriple, List.countP_append]
    simp

/-- Witness for C1: inserting the same triple twice into an empty table
leaves exactly one row. -/
theorem insert_message_idempotent_witness :
    countTriple
      ((insert_message (insert_message [] 1 2 3 false "r" 0).1 1 2 3 true "s" 1).1) 1 2 3 =
      countTriple [] 1 2 3 + 1 :=
  (insert_message_idempotent [] 1 2 3 false "r" 0).2.2.2 (by decide) true "s" 1

/-! ## `bot.py`: the verification pipeline
(`handle_private_message` → `_verify_attempts`) -/

/-- The per-user state the verification pipeline reads and writes:
`cacheBlock` is the session-cache flag `"block"`, `cacheVerify` the flag
`"verify"` (absent = `none`), `attempts` the cache-only flag
`"verify_attempts"` (default 0), `dbVerified` the `Verify.verified` column,
`blockDb` whether a `Block` row exists, and `topicCreated` whether
`create_topic` has run for the user. -/
structure VerifyState where
  cacheBlock : Bool
  cacheVerify : Option Bool
  attempts : Nat
  dbVerified : Bool
  blockDb : Bool
  topicCreated : Bool
deriving DecidableEq

/-- User-visible outcome of one submission. -/
inductive VerifyEvent
  | alreadyBlocked
  | toRelay
  | success
  | remaining (n : Int)
  | blockedNow
deriving DecidableEq

/-- `MyBot._verify_attempts` for a user whose `Verify` row is valid and
unverified: a match (`text.upper() == verify.code`) persists
`verified=true`, caches it, resets the attempt counter and creates the
relay topic; a mismatch increments the cache counter and either reports
the remaining tries (`3 - attempts`) or, once none remain, persists a
`Block` row and sets the cached block flag. -/
def verify_attempts (st : VerifyState) (code text : String) :
    VerifyState × List VerifyEvent :=
  if st.dbVerified then (st, [])
  else if pyUpper text == code then
    ({st with dbVerified := true, cacheVerify := some true,
              attempts := 0, topicCreated := true}, [.success])
  else
    let a := st.attempts + 1
    let rem : Int := 3 - (a : Int)
    if 0 < rem then
      ({st with attempts := a}, [.remaining rem])
    else
      ({st with attempts := a, cacheVerify := some false,
                blockDb := true, cacheBlock := true}, [.blockedNow])

/-- One text submission as routed by `handle_private_message`: the cached
block flag short-circuits with the "you are banned" reply; a cached (or
freshly loaded) verified flag routes to the relay; otherwise, with a valid
non-expired challenge outstanding (`_gif_verify` returning true), the text
goes to `_verify_attempts`. -/
def submitCode (st : VerifyState) (code text : String) :
    VerifyState × List VerifyEvent :=
  if st.cacheBlock then (st, [.alreadyBlocked])
  else
    let verified := st.cacheVerify.getD st.dbVerified
    let st := {st with cacheVerify := some verified}
    if verified then (st, [.toRelay])
    else verify_attempts st code text

/-! ## Claim C2 -/

/-- Claim C2: for an unverified user with a valid stored challenge code,
submissions are compared case-insensitively (the stored code being over the
captcha alphabet); a correct submission — whatever the current attempt
counter — persists `verified=true`, resets the attempt counter to 0,
creates the relay topic, and reports success; starting from a fresh
counter, the 1st and 2nd wrong submissions only report the remaining tries
(2, then 1) and persist nothing, a correct submission after the 1st or 2nd
wrong one still verifies and resets the counter to 0, exactly the 3rd wrong
submission persists the `Block` row and sets the cached block flag, and a
4th submission is turned away by the cached block flag without
re-persisting anything. -/
theorem verify_attempts_spec (st : VerifyState) (code : String)
    (hblock : st.cacheBlock = false) (hverify : st.cacheVerify = some false)
    (hdb : st.dbVerified = false) (hbdb : st.blockDb = false) :
    ((∀ c ∈ code.data, c ∈ allowed_chars) →
      ∀ text, (pyUpper text == code) = ciEq text code) ∧
    (∀ text, (pyUpper text == code) = true →
      submitCode st code text =
        ({st with cacheVerify := some true, dbVerified := true,
                  attempts := 0, topicCreated := true}, [.success])) ∧
    (st.attempts = 0 → ∀ w1 w2 w3 w4 c,
      (pyUpper w1 == code) = false → (pyUpper w2 == code) = false →
      (pyUpper w3 == code) = false → (pyUpper c == code) = true →
      let r1 := submitCode st code w1
      let r2 := submitCode r1.1 code w2
      let r3 := submitCode r2.1 code w3
      let r4 := submitCode r3.1 code w4
      r1.2 = [.remaining 2] ∧ r1.1.blockDb = false ∧ r1.1.cacheBlock = false ∧
        r1.1.attempts = 1 ∧
      r2.2 = [.remaining 1] ∧ r2.1.blockDb = false ∧ r2.1.cacheBlock = false ∧
        r2.1.attempts = 2 ∧
      r3.2 = [.blockedNow] ∧ r3.1.blockDb = true ∧ r3.1.cacheBlock = true ∧
      r4.2 = [.alreadyBlocked] ∧ r4.1 = r3.1 ∧
      (submitCode r1.1 code c).2 = [.success] ∧
        (submitCode r1.1 code c).1.attempts = 0 ∧
        (submitCode r1.1 code c).1.dbVerified = true ∧
        (submitCode r1.1 code c).1.blockDb = false ∧
      (submitCode r2.1 code c).2 = [.success] ∧
        (submitCode r2.1 code c).1.attempts = 0 ∧
        (submitCode r2.1 code c).1.dbVerified = true ∧
        (submitCode r2.1 code c).1.blockDb = false) := by
  refine ⟨fun hcode text => upper_eq_ciEq_of_allowed code hcode text, ?_, ?_⟩
  · intro text hmatch
    unfold submitCode verify_attempts
    simp [hblock, hverify, hdb, hmatch]
  · intro hatt w1 w2 w3 w4 c h1 h2 h3 hc
    simp only [submitCode, verify_attempts]
    simp [hblock, hverify, hdb, hatt, hbdb, h1, h2, h3, hc]

/-- Witness for C2: a correct submission entered after two wrong attempts
(counter at 2) verifies the user and resets the counter to 0. -/
theorem verify_attempts_spec_witness :
    submitCode ⟨false, some false, 2, false, false, false⟩ "ABCEF" "abcef" =
      ({(⟨false, some false, 2, false, false, false⟩ : VerifyState) with
          cacheVerify := some true, dbVerified := true,
          attempts := 0, topicCreated := true}, [.success]) :=
  (verify_attempts_spec ⟨false, some false, 2, false, false, false⟩ "ABCEF"
      rfl rfl rfl rfl).2.1 "abcef" (by decide)

/-! ## `cache.py`: `DataCache` as a whole (lock registry and scratch state) -/

/-- A session-cache value (`Any` in Python, restricted to the booleans and
integers the bot actually stores). -/
inductive CacheVal
  | b (v : Bool)
  | n (v : Int)
deriving DecidableEq

/-- The whole `DataCache` object.  Locks are identified by the id assigned
at creation (`next_lock` is the fresh-id counter), which models Python
object identity of the `asyncio.Lock` instances. -/
structure DataCacheState where
  user_locks : List (Int × Nat)
  next_lock : Nat
  user_data : List (Int × List (String × CacheVal))
  topic_data : List (Int × List (String × CacheVal))
  queues : List (Int × List ℚ)
deriving DecidableEq

/-- `DataCache.get_user_lock`: return the cached lock or create and register
a fresh one. -/
def get_user_lock (st : DataCacheState) (u : Int) : Nat × DataCacheState :=
  match st.user_locks.lookup u with
  | some l => (l, st)
  | none =>
      (st.next_lock,
        {st with user_locks := st.user_locks ++ [(u, st.next_lock)],
                 next_lock := st.next_lock + 1})

/-- Update (or create) a key in a string-keyed dictionary. -/
def setKV (m : List (String × CacheVal)) (k : String) (v : CacheVal) :
    List (String × CacheVal) :=
  match m with
  | [] => [(k, v)]
  | (k', v') :: t => if k' = k then (k, v) :: t else (k', v') :: setKV t k v

/-- Update (or create via `_get_user_data`/`_get_topic_data`) an id's
dictionary in `user_data`/`topic_data`. -/
def setEntry (m : List (Int × List (String × CacheVal))) (id1 : Int) (k : String)
    (v : CacheVal) : List (Int × List (String × CacheVal)) :=
  match m with
  | [] => [(id1, setKV [] k v)]
  | (i, d) :: t => if i = id1 then (i, setKV d k v) :: t else (i, d) :: setEntry t id1 k v

/-- Ensure an id has a (possibly empty) dictionary, as `_get_user_data` and
`_get_topic_data` do on a read miss. -/
def ensureEntry (m : List (Int × List (String × CacheVal))) (id1 : Int) :
    List (Int × List (String × CacheVal)) :=
  match m.lookup id1 with
  | some _ => m
  | none => m ++ [(id1, [])]

/-- Store a user's new flood queue, dropping the entry when the queue
became empty (`flood_message` returned `none`). -/
def setQueue (m : List (Int × List ℚ)) (u : Int) (q : Option (List ℚ)) :
    List (Int × List ℚ) :=
  match m, q with
  | m, none => m.filter (fun p => !(p.1 == u))
  | [], some l => [(u, l)]
  | (i, d) :: t, some l => if i = u then (i, l) :: t else (i, d) :: setQueue t u (some l)

/-- The public mutating operations of `DataCache`. -/
inductive CacheOp
  | getLock (u : Int)
  | getFlag (u : Int)
  | setFlag (u : Int) (k : String) (v : CacheVal)
  | getTopic (t : Int)
  | setTopic (t : Int) (k : String) (v : CacheVal)
  | flood (u : Int) (now window : ℚ)
  | clearUserAll
  | clearTopicAll
deriving DecidableEq

/-- Effect of each `DataCache` method on the cache state
(`get_flag`/`get_topic` mutate only by creating the empty per-id dict;
`clear_user_all` clears `user_data` **and** `user_locks`, as the code does). -/
def execOp (st : DataCacheState) : CacheOp → DataCacheState
  | .getLock u => (get_user_lock st u).2
  | .getFlag u => {st with user_data := ensureEntry st.user_data u}
  | .setFlag u k v => {st with user_data := setEntry st.user_data u k v}
  | .getTopic t => {st with topic_data := ensureEntry st.topic_data t}
  | .setTopic t k v => {st with topic_data := setEntry st.topic_data t k v}
  | .flood u now window =>
      {st with queues := setQueue st.queues u (flood_message (st.queues.lookup u) now window).1}
  | .clearUserAll => {st with user_data := [], user_locks := []}
  | .clearTopicAll => {st with topic_data := []}

/-- Run a sequence of cache operations. -/
def execOps (st : DataCacheState) : List CacheOp → DataCacheState
  | [] => st
  | op :: ops => execOps (execOp st op) ops

theorem lookup_append_left {α β : Type} [BEq α] (xs ys : List (α × β)) (a : α) (v : β)
    (h : xs.lookup a = some v) : (xs ++ ys).lookup a = some v := by
  induction xs with
  | nil => simp [List.lookup] at h
  | cons p t ih =>
      obtain ⟨k, b⟩ := p
      rw [List.cons_append, List.lookup]
      rw [List.lookup] at h
      cases hk : a == k with
      | true => rw [hk] at h; simpa [hk] using h
      | false =>
          simp only [hk] at h ⊢
          exact ih h

theorem lookup_append_self {α β : Type} [BEq α] [LawfulBEq α]
    (xs : List (α × β)) (a : α) (v : β) (h : xs.lookup a = none) :
    (xs ++ [(a, v)]).lookup a = some v := by
  induction xs with
  | nil => simp [List.lookup]
  | cons p t ih =>
      obtain ⟨k, b⟩ := p
      rw [List.lookup] at h
      rw [List.cons_append, List.lookup]
      cases hk : a == k with
      | true =>
          rw [hk] at h
          exact absurd h (by simp)
      | false =>
          simp only [hk] at h ⊢
          exact ih h

theorem lookup_preserved_of_no_clear (op : CacheOp) (hop : op ≠ .clearUserAll)
    (st : DataCacheState) (u : Int) (l : Nat)
    (h : st.user_locks.lookup u = some l) :
    (execOp st op).user_locks.lookup u = some l := by
  cases op with
  | getLock u2 =>
      simp only [execOp, get_user_lock]
      cases h2 : st.user_locks.lookup u2 with
      | some _ => exact h
      | none => exact lookup_append_left _ _ _ _ h
  | getFlag _ => exact h
  | setFlag _ _ _ => exact h
  | getTopic _ => exact h
  | setTopic _ _ _ => exact h
  | flood _ _ _ => exact h
  | clearUserAll => exact absurd rfl hop
  | clearTopicAll => exact h

theorem lookup_preserved_ops (ops : List CacheOp) :
    ∀ (st : DataCacheState) (u : Int) (l : Nat), CacheOp.clearUserAll ∉ ops →
      st.user_locks.lookup u = some l →
      (execOps st ops).user_locks.lookup u = some l := by
  induction ops with
  | nil => intro st u l _ h; exact h
  | cons op ops ih =>
      intro st u l hmem h
      rw [List.mem_cons, not_or] at hmem
      exact ih _ u l hmem.2
        (lookup_preserved_of_no_clear op (fun he => hmem.1 he.symm) st u l h)

/-! ## Claim C9 (corrected) -/

/-- Counterexample to Claim C9 as stated: the daily wholesale cache clear
(`clear_user_all`) also clears `user_locks`, so the lookup after a clear
creates a fresh mutex instead of returning the original one. -/
theorem get_user_lock_recreated_after_clear :
    (get_user_lock (execOp (get_user_lock ⟨[], 0, [], [], []⟩ 1).2 .clearUserAll) 1).1 ≠
      (get_user_lock ⟨[], 0, [], [], []⟩ 1).1 := by decide

/-- Claim C9 as amended: `get_user_lock` lazily creates and registers one
mutex per user id, and any interleaving of the session cache's operations
that does **not** include the wholesale user-cache clear returns that same
mutex on every later lookup; `clear_user_all` however wipes the registry,
so the next lookup after it creates a fresh mutex. -/
theorem get_user_lock_stable_without_clear (st : DataCacheState) (u : Int)
    (ops : List CacheOp) (h : CacheOp.clearUserAll ∉ ops) :
    (get_user_lock (execOps (get_user_lock st u).2 ops) u).1 =
      (get_user_lock st u).1 := by
  have hreg : (get_user_lock st u).2.user_locks.lookup u = some (get_user_lock st u).1 := by
    unfold get_user_lock
    cases h2 : st.user_locks.lookup u with
    | some l => simp [h2]
    | none =>
        simp only
        exact lookup_append_self st.user_locks u st.next_lock h2
  have hfinal := lookup_preserved_ops ops (get_user_lock st u).2 u
    (get_user_lock st u).1 h hreg
  conv_lhs => rw [get_user_lock]
  simp only [hfinal]

/-- Witness for the amended C9 at a concrete operation interleaving. -/
theorem get_user_lock_stable_without_clear_witness :
    (get_user_lock (execOps (get_user_lock ⟨[], 0, [], [], []⟩ 7).2
        [.setFlag 7 "block" (.b true), .clearTopicAll, .getLock 9, .flood 7 1 4]) 7).1 =
      (get_user_lock ⟨[], 0, [], [], []⟩ 7).1 :=
  get_user_lock_stable_without_clear ⟨[], 0, [], [], []⟩ 7
    [.setFlag 7 "block" (.b true), .clearTopicAll, .getLock 9, .flood 7 1 4] (by decide)

/-! ## `bot.py`: the private-to-group relay (`msg_to_topic`) and `/d`

Outbound Telegram calls are driven by the oracle `gw : Nat → Bool`, consumed
at successive indices along the executed path: `true` means the call
succeeds, `false` means it raises `telegram.error.TimedOut`.  A timeout
inside `msg_to_topic`'s `try` block jumps to the `except TimedOut` handler,
which sends the "your message may not have been delivered" reply (itself a
gateway call); a timeout outside the `try` propagates uncaught. -/

/-- The per-user state `msg_to_topic` touches: the `Block` row, the cached
`"block"` flag, the cached `"to_topic"` flag, the repo `Users.topic` value,
the flood queue entry and the `messages` table. -/
structure RelayState (α : Type) where
  blockDb : Bool
  cacheBlock : Bool
  toTopic : Option Int
  userTopic : Option Int
  queue : Option (List α)
  msgs : List Messages
deriving DecidableEq

/-- An inbound private message: sender, private message id, optional text,
monotonic arrival time, wall-clock stamp for the mapping row. -/
structure Inbound (α : Type) where
  userid : Int
  pmid : Int
  text : Option String
  now : α
  time : Int
deriving DecidableEq

/-- Successful gateway calls, in execution order, labelled by call site. -/
inductive GwCall
  | replyBlocked
  | replyFloodBan
  | replyFloodWarn
  | createTopic
  | sendIntro
  | notifyAdminCreateFail
  | replyBotError
  | forwardSpam
  | replySpamReason
  | copyMsg
  | replyTimeout
deriving DecidableEq

/-- How a `msg_to_topic` run ends: normal return, the `except TimedOut`
handler ran, a `TimedOut` escaped uncaught, the explicit
`raise Exception("创建话题失败")`, `check_spam` re-raised an unknown
classifier failure, or `insert_message` raised its consistency error. -/
inductive Outcome
  | ok
  | caughtTimeout
  | uncaughtTimeout
  | createFailError
  | spamCheckError
  | repoFatal
deriving DecidableEq

/-- The `except telegram.error.TimedOut` handler: reply with the timeout
notice (gateway call at index `k`); if that reply itself times out the
exception escapes. -/
def onTimeout {α : Type} (st : RelayState α) (evs : List GwCall) (gw : Nat → Bool) (k : Nat) :
    RelayState α × List GwCall × Outcome :=
  if gw k then (st, evs ++ [.replyTimeout], .caughtTimeout)
  else (st, evs, .uncaughtTimeout)

/-- Tail of `msg_to_topic` with the topic resolved: classify
(`_check_spam_with_typing` on text, `(False, "无文本消息")` otherwise), then
forward spam into the moderation thread with the reason attached, or copy
into the user's thread, and record the mapping. -/
def relayForward {α : Type} (st : RelayState α) (inb : Inbound α) (gw : Nat → Bool)
    (spamRes : Except Unit (Bool × String)) (outMsgId : Int) (k : Nat)
    (evs : List GwCall) : RelayState α × List GwCall × Outcome :=
  let judged : Except Unit (Bool × String) :=
    match inb.text with
    | none => .ok (false, "无文本消息")
    | some _ => spamRes
  match judged with
  | .error _ => (st, evs, .spamCheckError)
  | .ok (isSpam, reason) =>
      if isSpam then
        if gw k then
          if gw (k + 1) then
            match insert_message st.msgs inb.userid inb.pmid outMsgId true reason inb.time with
            | (db2, .ok) =>
                ({st with msgs := db2}, evs ++ [.forwardSpam, .replySpamReason], .ok)
            | (_, .fatal) => (st, evs ++ [.forwardSpam, .replySpamReason], .repoFatal)
          else onTimeout st (evs ++ [.forwardSpam]) gw (k + 2)
        else onTimeout st evs gw (k + 1)
      else
        if gw k then
          match insert_message st.msgs inb.userid inb.pmid outMsgId false reason inb.time with
          | (db2, .ok) => ({st with msgs := db2}, evs ++ [.copyMsg], .ok)
          | (_, .fatal) => (st, evs ++ [.copyMsg], .repoFatal)
        else onTimeout st evs gw (k + 1)

/-- Topic resolution inside `msg_to_topic`: reuse the cached `"to_topic"`
flag, else the repo `Users` row (caching it), else run `create_topic`
(create the forum topic, post the intro, insert the `Users` row, cache the
flag); `create_topic` swallows its own failures and notifies the admin, and
`msg_to_topic` then replies "Bot错误" and raises when the row still does
not exist. -/
def relayResolveTopic {α : Type} (st : RelayState α) (inb : Inbound α) (gw : Nat → Bool)
    (newTopic : Int) (spamRes : Except Unit (Bool × String)) (outMsgId : Int)
    (k : Nat) (evs : List GwCall) : RelayState α × List GwCall × Outcome :=
  match st.toTopic with
  | some _ => relayForward st inb gw spamRes outMsgId k evs
  | none =>
      match st.userTopic with
      | some t =>
          relayForward {st with toTopic := some t} inb gw spamRes outMsgId k evs
      | none =>
          if gw k then
            if gw (k + 1) then
              relayForward
                {st with userTopic := some newTopic, toTopic := some newTopic}
                inb gw spamRes outMsgId (k + 2)
                (evs ++ [.createTopic, .sendIntro])
            else
              if gw (k + 2) then
                if gw (k + 3) then
                  (st, evs ++ [.createTopic, .notifyAdminCreateFail, .replyBotError],
                    .createFailError)
                else onTimeout st (evs ++ [.createTopic, .notifyAdminCreateFail]) gw (k + 4)
              else onTimeout st (evs ++ [.createTopic]) gw (k + 3)
          else
            if gw (k + 1) then
              if gw (k + 2) then
                (st, evs ++ [.notifyAdminCreateFail, .replyBotError], .createFailError)
              else onTimeout st (evs ++ [.notifyAdminCreateFail]) gw (k + 3)
            else onTimeout st evs gw (k + 2)

/-- `MyBot.msg_to_topic`: under the user's lock — repo block check (reply
and cache the flag, outside the `try`), then inside the `try`: flood
control with window 4 (auto-block above 10, warn above 7), topic
resolution, classification, forward/copy and mapping insert. -/
def msg_to_topic {α : Type} [LinearOrderedRing α] (st : RelayState α) (inb : Inbound α)
    (gw : Nat → Bool) (newTopic : Int) (spamRes : Except Unit (Bool × String))
    (outMsgId : Int) : RelayState α × List GwCall × Outcome :=
  if st.blockDb then
    if gw 0 then ({st with cacheBlock := true}, [.replyBlocked], .ok)
    else (st, [], .uncaughtTimeout)
  else
    let fr := flood_message st.queue inb.now 4
    let st1 := {st with queue := fr.1}
    if 10 < fr.2 then
      if gw 0 then ({st1 with cacheBlock := true, blockDb := true}, [.replyFloodBan], .ok)
      else onTimeout st1 [] gw 1
    else if 7 < fr.2 then
      if gw 0 then relayResolveTopic st1 inb gw newTopic spamRes outMsgId 1 [.replyFloodWarn]
      else onTimeout st1 [] gw 1
    else relayResolveTopic st1 inb gw newTopic spamRes outMsgId 0 []

/-- One message of the end-to-end flood scenario. -/
structure InMsg (α : Type) where
  pmid : Int
  now : α
  outId : Int
  time : Int
deriving DecidableEq

/-- Run `msg_to_topic` over a sequence of text messages from one user,
collecting each run's successful gateway calls and outcome. -/
def runRelay {α : Type} [LinearOrderedRing α] (uid : Int) (gw : Nat → Bool) (newTopic : Int)
    (spamRes : Except Unit (Bool × String)) (txt : String) :
    RelayState α → List (InMsg α) → RelayState α × List (List GwCall × Outcome)
  | st, [] => (st, [])
  | st, m :: ms =>
      let r := msg_to_topic st ⟨uid, m.pmid, some txt, m.now, m.time⟩ gw newTopic spamRes m.outId
      let rest := runRelay uid gw newTopic spamRes txt r.1 ms
      (rest.1, (r.2.1, r.2.2) :: rest.2)

/-! ## `/d` deletion (`MyBot._delete` after the mapping row is found) -/

/-- The three deletion steps of `/d`, in program order. -/
inductive DelEvent
  | delPrivate
  | delTopic
  | repoRemove
deriving DecidableEq

/-- `MyBot._delete` once the mapping row `msg` has been resolved: delete the
private copy, delete the thread copy, and only then remove the mapping row;
a gateway failure raises and aborts the rest.  Returns the new `messages`
table, the executed steps, and whether the command completed. -/
def delete_cmd (db : List Messages) (msg : Messages) (gwPrivOk gwTopicOk : Bool) :
    List Messages × List DelEvent × Bool :=
  if !gwPrivOk then (db, [], false)
  else if !gwTopicOk then (db, [.delPrivate], false)
  else (db.erase msg, [.delPrivate, .delTopic, .repoRemove], true)

/-! ## Claim C7 -/

/-- Claim C7: `/d` deletes the private copy, then the thread copy, and only
then removes the mapping row; if either gateway delete fails the mapping
row is not removed and the repository is unchanged. -/
theorem delete_cmd_order (db : List Messages) (msg : Messages)
    (gwPrivOk gwTopicOk : Bool) :
    ((gwPrivOk = false ∨ gwTopicOk = false) →
      (delete_cmd db msg gwPrivOk gwTopicOk).1 = db ∧
      (delete_cmd db msg gwPrivOk gwTopicOk).2.2 = false ∧
      DelEvent.repoRemove ∉ (delete_cmd db msg gwPrivOk gwTopicOk).2.1) ∧
    (gwPrivOk = true → gwTopicOk = true →
      delete_cmd db msg gwPrivOk gwTopicOk =
        (db.erase msg, [.delPrivate, .delTopic, .repoRemove], true)) := by
  constructor
  · intro h
    unfold delete_cmd
    cases gwPrivOk <;> cases gwTopicOk <;> simp_all
  · intro h1 h2
    subst h1; subst h2
    unfold delete_cmd
    simp

/-- Witness for C7: a failing thread-side delete leaves the row in place. -/
theorem delete_cmd_order_witness :
    (delete_cmd [⟨1, 2, 3, false, "r", 0⟩] ⟨1, 2, 3, false, "r", 0⟩ true false).1 =
      [⟨1, 2, 3, false, "r", 0⟩] :=
  ((delete_cmd_order [⟨1, 2, 3, false, "r", 0⟩] ⟨1, 2, 3, false, "r", 0⟩ true false).1
    (Or.inr rfl)).1

/-! ## Claim C5 -/

theorem insert_message_never_fatal (db : List Messages) (userid pmid tmid : Int)
    (spam : Bool) (reason : String) (now : Int) :
    (insert_message db userid pmid tmid spam reason now).2 = .ok := by
  unfold insert_message
  by_cases hc : msgConflict db ⟨userid, pmid, tmid, spam, reason, now⟩ = true
  · have hquery : (db.find? (fun r => r.topic_message_id == tmid)).isSome = true ∨
        (db.find? (fun r => r.userid == userid && r.private_message_id == pmid)).isSome = true := by
      rw [msgConflict, List.any_eq_true] at hc
      obtain ⟨r, hr, hor⟩ := hc
      rcases Bool.or_eq_true_iff.mp hor with h | h
      · exact Or.inl (List.find?_isSome.mpr ⟨r, hr, h⟩)
      · exact Or.inr (List.find?_isSome.mpr ⟨r, hr, h⟩)
    rcases hquery with h | h <;>
      obtain ⟨r, hr⟩ := Option.isSome_iff_exists.mp h
    · simp only [hc, if_true, hr]
    · simp only [hc, if_true, hr]
      cases hfind : db.find? (fun r => r.topic_message_id == tmid) <;> simp
  · simp only [Bool.not_eq_true] at hc
    simp [hc]

/-- The 11 messages of the end-to-end flood scenario, all inside a 4-second
window (the clock reads the same instant for all of them). -/
def elevenMsgs : List (InMsg ℤ) :=
  (List.range 11).map (fun i => ⟨(i : Int) + 1, 0, 1000 + (i : Int), (i : Int)⟩)

/-- Claim C5: in the private-to-group relay, a message whose in-window flood
count exceeds 10 auto-blocks the user (block row persisted, cached flag
set), notifies them of the flood ban, and stops with no forward and no
mapping; a count above 7 but at most 10 warns and still processes the
message; and for 11 messages inside a 4-second window the 8th through 10th
get the flood warning while the 11th triggers the auto-block and is not
forwarded. -/
theorem msg_to_topic_flood_control {α : Type} [LinearOrderedRing α]
    (st : RelayState α) (inb : Inbound α) (gw : Nat → Bool)
    (newTopic t : Int) (sp : Bool) (reason : String) (outMsgId : Int) (s : String)
    (hgw : ∀ n, gw n = true) (hnb : st.blockDb = false) :
    (10 < (flood_message st.queue inb.now 4).2 →
      msg_to_topic st inb gw newTopic (.ok (sp, reason)) outMsgId =
        ({st with queue := (flood_message st.queue inb.now 4).1,
                  cacheBlock := true, blockDb := true}, [.replyFloodBan], .ok)) ∧
    (7 < (flood_message st.queue inb.now 4).2 →
      (flood_message st.queue inb.now 4).2 ≤ 10 →
      st.toTopic = some t → inb.text = some s →
      msg_to_topic st inb gw newTopic (.ok (sp, reason)) outMsgId =
        ({st with queue := (flood_message st.queue inb.now 4).1,
                  msgs := (insert_message st.msgs inb.userid inb.pmid outMsgId
                    sp reason inb.time).1},
          (if sp then [.replyFloodWarn, .forwardSpam, .replySpamReason]
            else [.replyFloodWarn, .copyMsg]), .ok)) ∧
    ((runRelay 42 (fun _ => true) 100 (.ok (false, "未触发任何关键词")) "hi"
        (⟨false, false, some 100, some 100, none, []⟩ : RelayState ℤ) elevenMsgs).2.map Prod.fst =
      [[.copyMsg], [.copyMsg], [.copyMsg], [.copyMsg], [.copyMsg], [.copyMsg], [.copyMsg],
       [.replyFloodWarn, .copyMsg], [.replyFloodWarn, .copyMsg], [.replyFloodWarn, .copyMsg],
       [.replyFloodBan]] ∧
      (runRelay 42 (fun _ => true) 100 (.ok (false, "未触发任何关键词")) "hi"
        (⟨false, false, some 100, some 100, none, []⟩ : RelayState ℤ) elevenMsgs).1.blockDb = true ∧
      (runRelay 42 (fun _ => true) 100 (.ok (false, "未触发任何关键词")) "hi"
        (⟨false, false, some 100, some 100, none, []⟩ : RelayState ℤ) elevenMsgs).1.msgs.length = 10) := by
  refine ⟨?_, ?_, by decide⟩
  · intro h10
    simp [msg_to_topic, hnb, hgw, h10]
  · intro h7 h10 htop htext
    have hlt : ¬ 10 < (flood_message st.queue inb.now 4).2 := not_lt.mpr h10
    rcases hins : insert_message st.msgs inb.userid inb.pmid outMsgId sp reason inb.time
      with ⟨db2, r2⟩
    have hok := insert_message_never_fatal st.msgs inb.userid inb.pmid outMsgId sp reason inb.time
    rw [hins] at hok
    cases r2 with
    | fatal => exact absurd hok (by simp)
    | ok =>
        cases sp <;>
          simp [msg_to_topic, relayResolveTopic, relayForward, hnb, hgw, h7, hlt,
            htop, htext, hins]

/-- Witness for C5: an 11th in-window message triggers the auto-block. -/
theorem msg_to_topic_flood_control_witness :
    msg_to_topic (⟨false, false, some 100, some 100,
        some [0, 0, 0, 0, 0, 0, 0, 0, 0, 0], []⟩ : RelayState ℤ)
      ⟨42, 1, some "hi", 0, 0⟩ (fun _ => true) 100 (.ok (false, "r")) 500 =
      ({(⟨false, false, some 100, some 100, some [0, 0, 0, 0, 0, 0, 0, 0, 0, 0], []⟩ :
          RelayState ℤ) with
          queue := (flood_message (some [0, 0, 0, 0, 0, 0, 0, 0, 0, 0]) (0 : ℤ) 4).1,
          cacheBlock := true, blockDb := true}, [.replyFloodBan], .ok) :=
  (msg_to_topic_flood_control
    (⟨false, false, some 100, some 100, some [0, 0, 0, 0, 0, 0, 0, 0, 0, 0], []⟩ : RelayState ℤ)
    ⟨42, 1, some "hi", 0, 0⟩ (fun _ => true) 100 100 false "r" 500 "hi"
    (fun _ => rfl) rfl).1 (by decide)

/-! ## Claim C8 (corrected) -/

theorem onTimeout_caught {α : Type} (st : RelayState α) (evs : List GwCall)
    (gw : Nat → Bool) (k : Nat) :
    (onTimeout st evs gw k).2.2 = .caughtTimeout →
      (onTimeout st evs gw k).1 = st ∧
      GwCall.replyTimeout ∈ (onTimeout st evs gw k).2.1 := by
  unfold onTimeout
  split <;> simp

theorem relayForward_caught {α : Type} (st : RelayState α) (inb : Inbound α)
    (gw : Nat → Bool) (spamRes : Except Unit (Bool × String)) (outMsgId : Int)
    (k : Nat) (evs : List GwCall) :
    (relayForward st inb gw spamRes outMsgId k evs).2.2 = .caughtTimeout →
      (relayForward st inb gw spamRes outMsgId k evs).1 = st ∧
      GwCall.replyTimeout ∈ (relayForward st inb gw spamRes outMsgId k evs).2.1 := by
  simp only [relayForward]
  repeat' split
  all_goals intro h
  all_goals
    first
      | exact absurd h (by simp)
      | exact onTimeout_caught _ _ _ _ h

theorem relayResolveTopic_caught {α : Type} (st : RelayState α) (inb : Inbound α)
    (gw : Nat → Bool) (newTopic : Int) (spamRes : Except Unit (Bool × String))
    (outMsgId : Int) (k : Nat) (evs : List GwCall) :
    (relayResolveTopic st inb gw newTopic spamRes outMsgId k evs).2.2 = .caughtTimeout →
      (relayResolveTopic st inb gw newTopic spamRes outMsgId k evs).1.msgs = st.msgs ∧
      (relayResolveTopic st inb gw newTopic spamRes outMsgId k evs).1.blockDb = st.blockDb ∧
      (relayResolveTopic st inb gw newTopic spamRes outMsgId k evs).1.cacheBlock = st.cacheBlock ∧
      GwCall.replyTimeout ∈ (relayResolveTopic st inb gw newTopic spamRes outMsgId k evs).2.1 := by
  simp only [relayResolveTopic]
  repeat' split
  all_goals intro h
  all_goals
    first
      | exact absurd h (by simp)
      | (obtain ⟨h1, h2⟩ := onTimeout_caught _ _ _ _ h
         exact ⟨by rw [h1], by rw [h1], by rw [h1], h2⟩)
      | (obtain ⟨h1, h2⟩ := relayForward_caught _ _ _ _ _ _ _ h
         exact ⟨by rw [h1], by rw [h1], by rw [h1], h2⟩)

/-- Counterexample to Claim C8 as stated: a run of the relay pipeline in
which the copy into the topic times out (and the user is told the message
may not have been delivered) still mutates per-user state — the flood
window has recorded the message's timestamp. -/
theorem msg_to_topic_timeout_mutates :
    (msg_to_topic (⟨false, false, some 100, some 100, none, []⟩ : RelayState ℤ)
        ⟨42, 1, some "hi", 0, 0⟩ (fun n => decide (n ≠ 0)) 100
        (.ok (false, "r")) 500).2.2 = .caughtTimeout ∧
    GwCall.replyTimeout ∈
      (msg_to_topic (⟨false, false, some 100, some 100, none, []⟩ : RelayState ℤ)
        ⟨42, 1, some "hi", 0, 0⟩ (fun n => decide (n ≠ 0)) 100
        (.ok (false, "r")) 500).2.1 ∧
    ¬ ((msg_to_topic (⟨false, false, some 100, some 100, none, []⟩ : RelayState ℤ)
        ⟨42, 1, some "hi", 0, 0⟩ (fun n => decide (n ≠ 0)) 100
        (.ok (false, "r")) 500).1 =
      (⟨false, false, some 100, some 100, none, []⟩ : RelayState ℤ)) := by
  decide

/-- Claim C8 as amended: when a run of the private-to-group relay ends in
the caught gateway timeout, the user is told the message may not have been
delivered, and no message mapping is recorded and no block state (block
row or cached block flag) changes — retrying is safe in that sense — but
the flood-window timestamp recorded at the start of the run (and any topic
mapping created or cached midway) may persist. -/
theorem msg_to_topic_timeout_partial_safety {α : Type} [LinearOrderedRing α]
    (st : RelayState α) (inb : Inbound α) (gw : Nat → Bool) (newTopic : Int)
    (spamRes : Except Unit (Bool × String)) (outMsgId : Int)
    (h : (msg_to_topic st inb gw newTopic spamRes outMsgId).2.2 = .caughtTimeout) :
    (msg_to_topic st inb gw newTopic spamRes outMsgId).1.msgs = st.msgs ∧
    (msg_to_topic st inb gw newTopic spamRes outMsgId).1.blockDb = st.blockDb ∧
    (msg_to_topic st inb gw newTopic spamRes outMsgId).1.cacheBlock = st.cacheBlock ∧
    GwCall.replyTimeout ∈ (msg_to_topic st inb gw newTopic spamRes outMsgId).2.1 := by
  revert h
  simp only [msg_to_topic]
  repeat' split
  all_goals intro h
  all_goals
    first
      | exact absurd h (by simp)
      | (obtain ⟨h1, h2⟩ := onTimeout_caught _ _ _ _ h
         exact ⟨by rw [h1], by rw [h1], by rw [h1], h2⟩)
      | (obtain ⟨h1, h2, h3, h4⟩ := relayResolveTopic_caught _ _ _ _ _ _ _ _ h
         exact ⟨h1, h2, h3, h4⟩)

/-- Witness for the amended C8 at the concrete timed-out copy. -/
theorem msg_to_topic_timeout_partial_safety_witness :
    (msg_to_topic (⟨false, false, some 100, some 100, none, []⟩ : RelayState ℤ)
        ⟨42, 1, some "hi", 0, 0⟩ (fun n => decide (n ≠ 0)) 100
        (.ok (false, "r")) 500).1.msgs =
      (⟨false, false, some 100, some 100, none, []⟩ : RelayState ℤ).msgs ∧
    (msg_to_topic (⟨false, false, some 100, some 100, none, []⟩ : RelayState ℤ)
        ⟨42, 1, some "hi", 0, 0⟩ (fun n => decide (n ≠ 0)) 100
        (.ok (false, "r")) 500).1.blockDb =
      (⟨false, false, some 100, some 100, none, []⟩ : RelayState ℤ).blockDb ∧
    (msg_to_topic (⟨false, false, some 100, some 100, none, []⟩ : RelayState ℤ)
        ⟨42, 1, some "hi", 0, 0⟩ (fun n => decide (n ≠ 0)) 100
        (.ok (false, "r")) 500).1.cacheBlock =
      (⟨false, false, some 100, some 100, none, []⟩ : RelayState ℤ).cacheBlock ∧
    GwCall.replyTimeout ∈
      (msg_to_topic (⟨false, false, some 100, some 100, none, []⟩ : RelayState ℤ)
        ⟨42, 1, some "hi", 0, 0⟩ (fun n => decide (n ≠ 0)) 100
        (.ok (false, "r")) 500).2.1 :=
  msg_to_topic_timeout_partial_safety
    (⟨false, false, some 100, some 100, none, []⟩ : RelayState ℤ)
    ⟨42, 1, some "hi", 0, 0⟩ (fun n => decide (n ≠ 0)) 100
    (.ok (false, "r")) 500 (by decide)

end UF
